import Mathlib

/-!
Verification development for the `asynchronix`/`nexosim` repository slice:
* `nexosim/src/server/services/init_service.rs` — the panic-isolated
  simulation initialization service (`InitService`);
* `nexosim-util/src/observables.rs` — the observable state container
  (`ObservableState`) and the `Observable` trait.

The Rust code is shallowly embedded: external collaborators (timestamp
conversion, CBOR decoding, the simulation-error mapping utility, the
blueprint's scheduler registration and first lifecycle transition) are
abstract parameters bundled in an `Env` structure, panics of the
user-supplied generator are modelled as an explicit outcome constructor
caught at the isolation boundary, and the order of side effects is made
observable through an event trace.
-/

namespace Nexosim

/-- Modelled from the spec: the wire-level error-code enumeration produced by
the protobuf codegen (not under `src/`). The spec gives the closed set
`{InvalidTime, InitializerPanic, InvalidMessage, <domain-specific codes>}`;
the domain-specific codes produced by the external error-mapping utility are
abstracted as an indexed family `domain n`. -/
inductive ErrorCode where
  | invalidTime
  | initializerPanic
  | invalidMessage
  | domain (n : Nat)
deriving DecidableEq, Repr

/-- Modelled from the spec: the wire-level `Error { code, message }` message
produced by the protobuf codegen (not under `src/`). -/
structure ErrorT where
  code : ErrorCode
  message : String
deriving DecidableEq, Repr

/-- Modelled from the spec: the `to_error(code, message)` helper from the
server module (not under `src/`); it packs a code and a human-readable
message into an `Error` value. -/
def to_error (code : ErrorCode) (message : String) : ErrorT :=
  { code := code, message := message }

/-- Modelled from the spec: the tagged result carried by an `InitReply`,
either `Empty` (success) or `Error{code, message}`. Mirrors
`init_reply::Result`. -/
inductive InitReplyResult where
  | empty
  | error (e : ErrorT)
deriving DecidableEq, Repr

/-- Modelled from the spec: the `InitReply` protobuf message; its `result`
field is optional at the wire level. -/
structure InitReply where
  result : Option InitReplyResult
deriving DecidableEq, Repr

/-- The payload of a caught panic, as inspected by `InitService::init`:
the code downcasts it first to `&str`, then to `String`, and otherwise
treats it as opaque. -/
inductive PanicPayload where
  | strLit (s : String)
  | ownedString (s : String)
  | otherPayload
deriving DecidableEq, Repr

/-- The `panic_msg` extraction of `InitService::init` (lines 68–74):
`downcast_ref::<&str>` first, then `downcast_ref::<String>`, else `None`. -/
def PanicPayload.panicMsg : PanicPayload → Option String
  | .strLit s => some s
  | .ownedString s => some s
  | .otherPayload => none

/-- Events recorded by the embedding to make invocation and ordering
observable: the wrapped generator closure being entered, the user-supplied
generator body being entered (after successful deserialization), the
registration of the registry's event sources with the blueprint's scheduler
registry, and the blueprint's first lifecycle transition `sim_init.init`. -/
inductive Event where
  | genCalled
  | userGenEntered
  | registerScheduler
  | simInitInit
deriving DecidableEq, Repr

/-- Behaviour of one invocation of the user-supplied generator on a decoded
configuration: it either panics (with some payload) or returns
`Result<(SimInit, EndpointRegistry), SimulationError>`. -/
inductive GenBehavior (SimInitT RegT SimErrT : Type) where
  | panics (payload : PanicPayload)
  | returns (r : Except SimErrT (SimInitT × RegT))

/-- The external collaborators of `InitService`, bundled: the wire timestamp
and monotonic time types with the conversion `timestamp_to_monotonic`, the
typed configuration with the CBOR decoder `ciborium::from_reader` (decode
failure carries the rendered error message), the shared error-mapping
utility `map_simulation_error`, the registration of the registry's event
sources with the blueprint's scheduler registry (which may mutate both the
registry and the blueprint), and the blueprint's first lifecycle transition
`SimInit::init` together with the rendering of its error. -/
structure Env : Type 1 where
  Ts : Type
  Mono : Type
  Cfg : Type
  SimInitT : Type
  SimuT : Type
  RegT : Type
  SimErrT : Type
  InitErrT : Type
  tsToMono : Ts → Option Mono
  decode : List Nat → Except String Cfg
  mapSimulationError : SimErrT → ErrorT
  registerScheduler : RegT → SimInitT → RegT × SimInitT
  simInitInit : SimInitT → Mono → Except InitErrT SimuT
  initErrMsg : InitErrT → String

/-- The `InitRequest` protobuf message: an optional wire timestamp and the
raw CBOR configuration bytes. -/
structure InitRequest (E : Env) where
  time : Option E.Ts
  cfg : List Nat

/-- The initialization service: it stores the user-supplied generator
(the `sim_gen` closure of `InitService::new`, before wrapping). -/
structure InitService (E : Env) where
  simGen : E.Cfg → GenBehavior E.SimInitT E.RegT E.SimErrT

/-- The wrapped generator built by `InitService::new` (lines 38–42), run
under the `panic::catch_unwind` boundary of `InitService::init` (line 66).
The outermost `Except` layer is the catch-unwind result (`Err` = caught
panic payload), the middle layer is the deserialization result, the
innermost is the generator's own result. The trace records that the wrapped
closure ran and whether the user generator body was entered. -/
def guardedGen (E : Env) (svc : InitService E) (bytes : List Nat) :
    Except PanicPayload
      (Except String (Except E.SimErrT (E.SimInitT × E.RegT))) × List Event :=
  match E.decode bytes with
  | .error e => (.ok (.error e), [.genCalled])
  | .ok cfg =>
    match svc.simGen cfg with
    | .panics payload => (.error payload, [.genCalled, .userGenEntered])
    | .returns r => (.ok (.ok r), [.genCalled, .userGenEntered])

/-- The `map_err` closure of `InitService::init` (lines 67–86): turn a
caught panic payload into `Error{InitializerPanic, message}`, quoting the
payload text when it downcasts to `&str` or `String` and falling back to a
generic message otherwise. -/
def panicPayloadToError (payload : PanicPayload) : ErrorT :=
  match payload.panicMsg with
  | some m =>
      to_error .initializerPanic
        ("the simulation initializer has panicked with the message `" ++ m ++ "`")
  | none => to_error .initializerPanic "the simulation initializer has panicked"

/-- `InitService::init` (lines 50–125). Returns the pair
`(InitReply, Option (Simulation, EndpointRegistry))` exactly as the Rust
function does, together with the event trace of the call.

Step by step, mirroring the source: validate the request time through
`timestamp_to_monotonic` (lines 54–64); run the wrapped generator under
`catch_unwind` and fold the three failure layers into an `Error` value —
panic payload (lines 66–86), deserialization failure (lines 87–96), and
domain error via `map_simulation_error` (line 97); on success register the
registry's event sources with the blueprint's scheduler registry
(lines 102–104) and then run the first lifecycle transition
`sim_init.init(start_time)` (lines 105–114); finally wrap the tagged result
into an `InitReply` (lines 119–124). -/
def InitService.init (E : Env) (svc : InitService E) (request : InitRequest E) :
    (InitReply × Option (E.SimuT × E.RegT)) × List Event :=
  match request.time.bind E.tsToMono with
  | none =>
    (({ result := some (.error (to_error .invalidTime
          "simulation start time not provided")) }, none), [])
  | some start_time =>
    let g := guardedGen E svc request.cfg
    let reply : Except ErrorT (E.SimInitT × E.RegT) :=
      match g.1 with
      | .error payload => .error (panicPayloadToError payload)
      | .ok (.error e) =>
          .error (to_error .invalidMessage
            ("the initializer configuration could not be deserialized: " ++ e))
      | .ok (.ok (.error e)) => .error (E.mapSimulationError e)
      | .ok (.ok (.ok sr)) => .ok sr
    match reply with
    | .ok (sim_init, registry) =>
      let rs := E.registerScheduler registry sim_init
      match E.simInitInit rs.2 start_time with
      | .ok simu =>
          (({ result := some .empty }, some (simu, rs.1)),
            g.2 ++ [.registerScheduler, .simInitInit])
      | .error e =>
          (({ result := some (.error (to_error .initializerPanic
                ("the simulation initializer has panicked: " ++ E.initErrMsg e))) },
              none),
            g.2 ++ [.registerScheduler, .simInitInit])
    | .error e => (({ result := some (.error e) }, none), g.2)

/-- A concrete instantiation of the external collaborators, used to evaluate
the model on closed inputs. All abstract types are `Nat`; timestamp `0` is
the one that fails conversion; decoding takes the first byte as the typed
configuration and fails on empty input; registration shifts registry and
blueprint by fixed offsets; the first lifecycle transition fails exactly on
blueprints `≥ 2000`. -/
abbrev testEnv : Env where
  Ts := Nat
  Mono := Nat
  Cfg := Nat
  SimInitT := Nat
  SimuT := Nat
  RegT := Nat
  SimErrT := Nat
  InitErrT := Nat
  tsToMono := fun t => if t = 0 then none else some t
  decode := fun bs =>
    match bs with
    | [] => .error "premature end of input"
    | b :: _ => .ok b
  mapSimulationError := fun e => to_error (.domain e) "simulation error"
  registerScheduler := fun r s => (r + 100, s + 1000)
  simInitInit := fun s t => if s ≥ 2000 then .error 7 else .ok (s + t)
  initErrMsg := fun e => toString e

/-- A concrete service over `testEnv`: the user generator panics with a
`&str` payload on configuration `1`, panics with an opaque payload on `2`,
returns a domain simulation error on `3`, returns a blueprint whose first
lifecycle transition fails on `4`, and succeeds otherwise. -/
def testSvc : InitService testEnv where
  simGen := fun c =>
    if c = 1 then .panics (.strLit "boom")
    else if c = 2 then .panics .otherPayload
    else if c = 3 then .returns (.error 42)
    else if c = 4 then .returns (.ok (1500, 6))
    else .returns (.ok (5, 6))

/-!
## Observable state container (`nexosim-util/src/observables.rs`)

The `Output<T>` port is an external collaborator from `nexosim::ports`
(not under `src/`); per the spec it exposes an asynchronous `send(value)`
delivering to external subscribers. We model it as the ordered list of
values it has accepted, with `send` appending; the `await` suspension point
is represented by `send` completing before the enclosing operation returns,
i.e. the appended list is part of the operation's result.
-/

/-- Modelled from the spec: the `Output<T>` sink, as the ordered sequence of
emissions it has delivered. -/
structure Output (T : Type) where
  sent : List T
deriving DecidableEq, Repr

/-- Modelled from the spec: `Output::send`, appending one emission. -/
def Output.send {T : Type} (o : Output T) (v : T) : Output T :=
  { sent := o.sent ++ [v] }

/-- The `Observable` trait: observe the value (observables.rs lines 13–16). -/
class Observable (S : Type) (T : Type) where
  observe : S → T

/-- The blanket implementation `impl<T: Clone> Observable<T> for T` with
`observe = clone` (observables.rs lines 18–25); cloning is the identity. -/
instance (T : Type) : Observable T T where
  observe := id

/-- `ObservableState<S, T>` (observables.rs lines 31–42): a state value
together with the output used for observation. -/
structure ObservableState (S T : Type) [Observable S T] where
  state : S
  out : Output T

variable {S T R : Type} [Observable S T]

/-- `ObservableState::new` (lines 50–55): default-valued state bound to the
given output; no emission on construction. -/
def ObservableState.new [Inhabited S] (out : Output T) : ObservableState S T :=
  { state := default, out := out }

/-- `ObservableState::get` (lines 58–60): read-only view of the state. -/
def ObservableState.get (s : ObservableState S T) : S :=
  s.state

/-- `ObservableState::set` (lines 63–66): replace the state, then send
`observe` of the (new) state through the output. -/
def ObservableState.set (s : ObservableState S T) (value : S) :
    ObservableState S T :=
  let s := { s with state := value }
  { s with out := s.out.send (Observable.observe s.state) }

/-- `ObservableState::modify` (lines 69–76): apply `f` to the state in
place (modelled as `f : S → S × R`, the new state plus `f`'s return value),
send `observe` of the post-mutation state, and return `f`'s result. -/
def ObservableState.modify (s : ObservableState S T) (f : S → S × R) :
    ObservableState S T × R :=
  let fr := f s.state
  ({ state := fr.1, out := s.out.send (Observable.observe fr.1) }, fr.2)

/-- `ObservableState::propagate` (lines 79–81): send `observe` of the
current state without mutating it. -/
def ObservableState.propagate (s : ObservableState S T) : ObservableState S T :=
  { s with out := s.out.send (Observable.observe s.state) }

/-- C7: for every `ObservableState` and every value `v`, `set v` replaces the
stored state with `v` — a subsequent `get` returns `v` — and causes exactly
one emission through the sink, equal to `observe v` (the observation of the
state after replacement), appended after the replacement; `set` returns only
after the emission completes, so the returned container already carries the
emission. -/
theorem observable_set (s : ObservableState S T) (v : S) :
    (s.set v).get = v
      ∧ (s.set v).out.sent = s.out.sent ++ [Observable.observe v] := by
  constructor <;> rfl

/-- C8: for every `ObservableState` and function `f` (modelled as a state
transformer returning the new state and `f`'s result), `modify f` applies
`f` to the state in place, causes exactly one emission equal to `observe` of
the post-mutation state, and returns `f`'s return value. -/
theorem observable_modify (s : ObservableState S T) (f : S → S × R) :
    (s.modify f).1.state = (f s.state).1
      ∧ (s.modify f).1.out.sent
          = s.out.sent ++ [Observable.observe (f s.state).1]
      ∧ (s.modify f).2 = (f s.state).2 := by
  refine ⟨rfl, rfl, rfl⟩

/-- C9: `propagate` leaves the stored state unchanged and emits exactly one
snapshot equal to `observe state`; emissions are not deduplicated, so two
consecutive `propagate` calls with no intervening mutation produce two
identical emissions. -/
theorem observable_propagate (s : ObservableState S T) :
    s.propagate.state = s.state
      ∧ s.propagate.out.sent = s.out.sent ++ [Observable.observe s.state]
      ∧ s.propagate.propagate.out.sent
          = s.out.sent ++ [Observable.observe s.state, Observable.observe s.state] := by
  refine ⟨rfl, rfl, by simp [ObservableState.propagate, Output.send]⟩

/-- C3: when the request's timestamp is absent, or `timestamp_to_monotonic`
rejects it, `init` returns `Error{InvalidTime}` with the fixed message, no
simulation handle, and the stored generator — including its deserialization
wrapper — is never invoked (the trace is empty). -/
theorem init_invalid_time (E : Env) (svc : InitService E) (request : InitRequest E)
    (h : request.time.bind E.tsToMono = none) :
    InitService.init E svc request
        = (({ result := some (.error (to_error .invalidTime
              "simulation start time not provided")) }, none), [])
      ∧ Event.genCalled ∉ (InitService.init E svc request).2 := by
  unfold InitService.init
  rw [h]
  exact ⟨rfl, by simp⟩

/-- C3 witness: a request with no timestamp (and one with a rejected
timestamp would behave identically) yields the `InvalidTime` error, no
handle, and an empty trace. -/
theorem init_invalid_time_witness :
    ({ time := none, cfg := [9] } : InitRequest testEnv).time.bind testEnv.tsToMono
        = none
      ∧ (InitService.init testEnv testSvc { time := none, cfg := [9] }
          = (({ result := some (.error (to_error .invalidTime
                "simulation start time not provided")) }, none), [])
        ∧ Event.genCalled
            ∉ (InitService.init testEnv testSvc { time := none, cfg := [9] }).2) :=
  ⟨rfl, init_invalid_time testEnv testSvc { time := none, cfg := [9] } rfl⟩

/-- C4: when the time is valid but the configuration bytes fail to decode,
`init` returns `Error{InvalidMessage}` carrying the decode failure detail,
no simulation handle, and the user-supplied generator body is not entered
(deserialization happens first inside the guarded call). -/
theorem init_invalid_message (E : Env) (svc : InitService E)
    (request : InitRequest E) (t : E.Mono) (e : String)
    (h1 : request.time.bind E.tsToMono = some t)
    (h2 : E.decode request.cfg = .error e) :
    (InitService.init E svc request).1.1.result
        = some (.error (to_error .invalidMessage
            ("the initializer configuration could not be deserialized: " ++ e)))
      ∧ (InitService.init E svc request).1.2 = none
      ∧ Event.userGenEntered ∉ (InitService.init E svc request).2 := by
  unfold InitService.init guardedGen
  rw [h1, h2]
  exact ⟨rfl, rfl, by simp⟩

/-- C4 witness: with a valid timestamp and undecodable (empty) configuration
bytes, the reply is the `InvalidMessage` error carrying the decoder's
detail, the handle is absent, and the user generator body never ran. -/
theorem init_invalid_message_witness :
    ({ time := some 5, cfg := [] } : InitRequest testEnv).time.bind testEnv.tsToMono
        = some 5
      ∧ testEnv.decode [] = .error "premature end of input"
      ∧ ((InitService.init testEnv testSvc { time := some 5, cfg := [] }).1.1.result
          = some (.error (to_error .invalidMessage
              ("the initializer configuration could not be deserialized: "
                ++ "premature end of input")))
        ∧ (InitService.init testEnv testSvc { time := some 5, cfg := [] }).1.2 = none
        ∧ Event.userGenEntered
            ∉ (InitService.init testEnv testSvc { time := some 5, cfg := [] }).2) :=
  ⟨rfl, rfl,
    init_invalid_message testEnv testSvc { time := some 5, cfg := [] } 5
      "premature end of input" rfl rfl⟩

/-- C5: when the time is valid, the configuration decodes, and the generator
returns a typed simulation construction error `e` without panicking, the
reply's error is exactly `map_simulation_error e` — no other error value is
produced on this path — and no simulation handle is returned. -/
theorem init_domain_error_mapping (E : Env) (svc : InitService E)
    (request : InitRequest E) (t : E.Mono) (c : E.Cfg) (e : E.SimErrT)
    (h1 : request.time.bind E.tsToMono = some t)
    (h2 : E.decode request.cfg = .ok c)
    (h3 : svc.simGen c = .returns (.error e)) :
    (InitService.init E svc request).1.1.result
        = some (.error (E.mapSimulationError e))
      ∧ (InitService.init E svc request).1.2 = none := by
  unfold InitService.init guardedGen
  rw [h1, h2]
  dsimp only
  rw [h3]
  exact ⟨rfl, rfl⟩

/-- C5 witness: the generator returning the domain error `42` yields a reply
whose error is exactly `map_simulation_error 42`, with no handle. -/
theorem init_domain_error_mapping_witness :
    ({ time := some 5, cfg := [3] } : InitRequest testEnv).time.bind testEnv.tsToMono
        = some 5
      ∧ testEnv.decode [3] = .ok 3
      ∧ testSvc.simGen 3 = .returns (.error 42)
      ∧ ((InitService.init testEnv testSvc { time := some 5, cfg := [3] }).1.1.result
          = some (.error (testEnv.mapSimulationError 42))
        ∧ (InitService.init testEnv testSvc { time := some 5, cfg := [3] }).1.2 = none) :=
  ⟨rfl, rfl, rfl,
    init_domain_error_mapping testEnv testSvc { time := some 5, cfg := [3] } 5 3 42
      rfl rfl rfl⟩

/-- C6: when time validation, decoding and generation all succeed but the
blueprint's first lifecycle transition `sim_init.init(start_time)` fails
(on the blueprint as mutated by scheduler registration), `init` returns
`Error{InitializerPanic}` carrying the failure's rendered message and no
simulation handle — the panic error code is reused for this distinct,
non-panic failure class. -/
theorem init_lifecycle_failure (E : Env) (svc : InitService E)
    (request : InitRequest E) (t : E.Mono) (c : E.Cfg)
    (si : E.SimInitT) (reg : E.RegT) (e : E.InitErrT)
    (h1 : request.time.bind E.tsToMono = some t)
    (h2 : E.decode request.cfg = .ok c)
    (h3 : svc.simGen c = .returns (.ok (si, reg)))
    (h4 : E.simInitInit (E.registerScheduler reg si).2 t = .error e) :
    (InitService.init E svc request).1.1.result
        = some (.error (to_error .initializerPanic
            ("the simulation initializer has panicked: " ++ E.initErrMsg e)))
      ∧ (InitService.init E svc request).1.2 = none := by
  unfold InitService.init guardedGen
  rw [h1, h2]
  dsimp only
  rw [h3]
  dsimp only
  rw [h4]
  exact ⟨rfl, rfl⟩

/-- C6 witness: configuration `4` produces a blueprint whose first lifecycle
transition fails with error `7`; the reply reuses the `InitializerPanic`
code with the failure's message and the handle is absent. -/
theorem init_lifecycle_failure_witness :
    ({ time := some 5, cfg := [4] } : InitRequest testEnv).time.bind testEnv.tsToMono
        = some 5
      ∧ testEnv.decode [4] = .ok 4
      ∧ testSvc.simGen 4 = .returns (.ok (1500, 6))
      ∧ testEnv.simInitInit (testEnv.registerScheduler 6 1500).2 5 = .error 7
      ∧ ((InitService.init testEnv testSvc { time := some 5, cfg := [4] }).1.1.result
          = some (.error (to_error .initializerPanic
              ("the simulation initializer has panicked: " ++ testEnv.initErrMsg 7)))
        ∧ (InitService.init testEnv testSvc { time := some 5, cfg := [4] }).1.2 = none) :=
  ⟨rfl, rfl, rfl, rfl,
    init_lifecycle_failure testEnv testSvc { time := some 5, cfg := [4] } 5 4 1500 6 7
      rfl rfl rfl rfl⟩

/-- C1: when the stored generator panics during the guarded
decode-and-generate step (valid time, decodable configuration), `init`
catches the panic and returns `Error{InitializerPanic}` with no simulation
handle; the message quotes the payload text when the payload is a `&str` or
an owned `String` and is the generic fallback otherwise; and the service
remains usable: a subsequent call on the same service whose request passes
every stage still returns `Empty` with a present handle. -/
theorem init_panic_isolated (E : Env) (svc : InitService E)
    (request : InitRequest E) (t : E.Mono) (c : E.Cfg) (payload : PanicPayload)
    (h1 : request.time.bind E.tsToMono = some t)
    (h2 : E.decode request.cfg = .ok c)
    (h3 : svc.simGen c = .panics payload)
    (request₂ : InitRequest E) (t₂ : E.Mono) (c₂ : E.Cfg)
    (si : E.SimInitT) (reg : E.RegT) (simu : E.SimuT)
    (h4 : request₂.time.bind E.tsToMono = some t₂)
    (h5 : E.decode request₂.cfg = .ok c₂)
    (h6 : svc.simGen c₂ = .returns (.ok (si, reg)))
    (h7 : E.simInitInit (E.registerScheduler reg si).2 t₂ = .ok simu) :
    (InitService.init E svc request).1.1.result
        = some (.error (to_error .initializerPanic
            (match payload with
             | .strLit s =>
                 "the simulation initializer has panicked with the message `"
                   ++ s ++ "`"
             | .ownedString s =>
                 "the simulation initializer has panicked with the message `"
                   ++ s ++ "`"
             | .otherPayload => "the simulation initializer has panicked")))
      ∧ (InitService.init E svc request).1.2 = none
      ∧ (InitService.init E svc request₂).1.1.result = some .empty
      ∧ (InitService.init E svc request₂).1.2.isSome = true := by
  refine ⟨?_, ?_, ?_, ?_⟩
  all_goals unfold InitService.init guardedGen
  case _ =>
    rw [h1, h2]
    simp only [h3]
    cases payload <;> rfl
  case _ =>
    rw [h1, h2]
    simp only [h3]
  case _ =>
    rw [h4, h5]
    simp only [h6, h7]
  case _ =>
    rw [h4, h5]
    simp only [h6, h7]
    rfl

/-- C1 witness: a generator panicking with the `&str` payload "boom" yields
the `InitializerPanic` reply quoting "boom" and no handle, and a following
request with configuration `9` still initializes successfully. -/
theorem init_panic_isolated_witness :
    ({ time := some 5, cfg := [1] } : InitRequest testEnv).time.bind testEnv.tsToMono
        = some 5
      ∧ testEnv.decode [1] = .ok 1
      ∧ testSvc.simGen 1 = .panics (.strLit "boom")
      ∧ ({ time := some 5, cfg := [9] } : InitRequest testEnv).time.bind testEnv.tsToMono
          = some 5
      ∧ testEnv.decode [9] = .ok 9
      ∧ testSvc.simGen 9 = .returns (.ok (5, 6))
      ∧ testEnv.simInitInit (testEnv.registerScheduler 6 5).2 5 = .ok 1010
      ∧ ((InitService.init testEnv testSvc { time := some 5, cfg := [1] }).1.1.result
          = some (.error (to_error .initializerPanic
              "the simulation initializer has panicked with the message `boom`"))
        ∧ (InitService.init testEnv testSvc { time := some 5, cfg := [1] }).1.2 = none
        ∧ (InitService.init testEnv testSvc { time := some 5, cfg := [9] }).1.1.result
            = some .empty
        ∧ (InitService.init testEnv testSvc { time := some 5, cfg := [9] }).1.2.isSome
            = true) :=
  ⟨rfl, rfl, rfl, rfl, rfl, rfl, rfl,
    init_panic_isolated testEnv testSvc { time := some 5, cfg := [1] } 5 1
      (.strLit "boom") rfl rfl rfl { time := some 5, cfg := [9] } 5 9 5 6 1010
      rfl rfl rfl rfl⟩

/-- C2: when the time is valid, the configuration decodes, the generator
succeeds with `(sim_init, registry)`, and the first lifecycle transition
succeeds, `init` returns `Empty` together with a present handle holding the
running simulation and the post-registration registry; in the call's event
trace the scheduler registration of the registry's event-source subsystem
occurs strictly before the first lifecycle transition. -/
theorem init_success (E : Env) (svc : InitService E)
    (request : InitRequest E) (t : E.Mono) (c : E.Cfg)
    (si : E.SimInitT) (reg : E.RegT) (simu : E.SimuT)
    (h1 : request.time.bind E.tsToMono = some t)
    (h2 : E.decode request.cfg = .ok c)
    (h3 : svc.simGen c = .returns (.ok (si, reg)))
    (h4 : E.simInitInit (E.registerScheduler reg si).2 t = .ok simu) :
    (InitService.init E svc request).1.1 = { result := some .empty }
      ∧ (InitService.init E svc request).1.2
          = some (simu, (E.registerScheduler reg si).1)
      ∧ (InitService.init E svc request).2
          = [.genCalled, .userGenEntered, .registerScheduler, .simInitInit]
      ∧ (InitService.init E svc request).2.indexOf Event.registerScheduler
          < (InitService.init E svc request).2.indexOf Event.simInitInit := by
  unfold InitService.init guardedGen
  rw [h1, h2]
  dsimp only
  rw [h3]
  dsimp only
  rw [h4]
  refine ⟨rfl, rfl, rfl, ?_⟩
  dsimp only
  decide

/-- C2 witness: configuration `9` passes every stage; the reply is `Empty`,
the handle carries the running simulation and the registered registry, and
the trace places scheduler registration before the lifecycle transition. -/
theorem init_success_witness :
    ({ time := some 5, cfg := [9] } : InitRequest testEnv).time.bind testEnv.tsToMono
        = some 5
      ∧ testEnv.decode [9] = .ok 9
      ∧ testSvc.simGen 9 = .returns (.ok (5, 6))
      ∧ testEnv.simInitInit (testEnv.registerScheduler 6 5).2 5 = .ok 1010
      ∧ ((InitService.init testEnv testSvc { time := some 5, cfg := [9] }).1.1
          = { result := some .empty }
        ∧ (InitService.init testEnv testSvc { time := some 5, cfg := [9] }).1.2
            = some (1010, (testEnv.registerScheduler 6 5).1)
        ∧ (InitService.init testEnv testSvc { time := some 5, cfg := [9] }).2
            = [.genCalled, .userGenEntered, .registerScheduler, .simInitInit]
        ∧ (InitService.init testEnv testSvc
              { time := some 5, cfg := [9] }).2.indexOf Event.registerScheduler
            < (InitService.init testEnv testSvc
                { time := some 5, cfg := [9] }).2.indexOf Event.simInitInit) :=
  ⟨rfl, rfl, rfl, rfl,
    init_success testEnv testSvc { time := some 5, cfg := [9] } 5 9 5 6 1010
      rfl rfl rfl rfl⟩

/-- C10: for every environment, service and request, the reply's `result`
field is populated, and the simulation handle is present exactly when the
result is `Empty`: no error reply ever comes with a handle and no `Empty`
reply ever comes without one. -/
theorem init_reply_invariant (E : Env) (svc : InitService E)
    (request : InitRequest E) :
    ((InitService.init E svc request).1.1.result).isSome = true
      ∧ ((InitService.init E svc request).1.2.isSome = true
          ↔ (InitService.init E svc request).1.1.result = some .empty) := by
  unfold InitService.init guardedGen
  cases hT : request.time.bind E.tsToMono with
  | none => simp
  | some t =>
    dsimp only
    cases hD : E.decode request.cfg with
    | error e => simp
    | ok c =>
      dsimp only
      cases hG : svc.simGen c with
      | panics payload => simp
      | returns r =>
        dsimp only
        cases r with
        | error e => simp
        | ok sr =>
          dsimp only
          cases hS : E.simInitInit (E.registerScheduler sr.2 sr.1).2 t with
          | ok simu => simp
          | error e => simp

end Nexosim
